import Mathlib

/-!
# Verification of the chatbot dialogue core (`src/app.py`)

This file is a shallow embedding, in Lean 4, of the pure decision logic of the
chatbot application: input validation and sanitization (`MessageValidator`),
keyword intent classification (`RasaIntentClassifier`), context-aware response
selection (`ContextAwareResponseGenerator`), the Neo4j-backed session store
(`Neo4jSessionManager`, modelled as a pure state transformer on an in-memory
database value), and the orchestration pipeline (`DialogueEngine.process_message`).

Modelling conventions:
* Python strings are `List Char` (`Str`); Python's `len` counts code points,
  matching `List.length`.
* Python regular expressions used by the code are simple enough to model
  directly: `\s+` collapse, the case-insensitive substring alternation of the
  injection check, and `#?(\d{4,})` for order-number extraction.  `\s` and `\d`
  are modelled over their ASCII ranges (the program is exercised with ASCII
  text; the claims under study do not hinge on non-ASCII whitespace or digits).
* Python float constants (0.85, 0.6, 0.9, ...) never participate in float
  arithmetic in this code — they are produced and compared only as constants —
  so they are embedded as exact rationals.
* `random.choice` is modelled by passing an explicit choice function, and
  response selection is additionally exposed as the chosen *bucket* (the list
  of candidate replies), since bucket membership is the stated invariant.
* The Neo4j store is modelled as a pure value (`DB`): each Cypher query in the
  source is transcribed as a pure function.  A `MATCH` that finds no node makes
  the write a no-op (as in Cypher), and the engine's store calls are traced so
  that "no store access" is expressible.
-/

/-- Python strings, embedded as lists of characters. -/
abbrev Str := List Char

/-- Coerce a Lean string literal to the `Str` embedding. -/
def chars (x : String) : Str := x.data

/-- Python's `\s` / `str.strip()` whitespace class, restricted to ASCII:
space, tab, newline, carriage return, vertical tab, form feed. -/
def pyIsSpace (c : Char) : Bool :=
  c == ' ' || c == '\t' || c == '\n' || c == '\r' || c == '\x0b' || c == '\x0c'

/-- Python's `\d` digit class, restricted to ASCII `0`-`9`. -/
def pyIsDigit (c : Char) : Bool :=
  '0' ≤ c && c ≤ '9'

/-- `str.lower()` (ASCII case folding suffices for the fixed keyword tables). -/
def toLowerStr (l : Str) : Str := l.map Char.toLower

/-- The Python `in` substring test: `needle in hay`. -/
def containsSub (needle : Str) : Str → Bool
  | [] => needle.isEmpty
  | c :: rest => needle.isPrefixOf (c :: rest) || containsSub needle rest

-- ==================== MessageValidator ====================

/-- `Config.MAX_MESSAGE_LENGTH` from `src/app.py`. -/
def MAX_MESSAGE_LENGTH : Nat := 1000

/-- `Config.MIN_MESSAGE_LENGTH` from `src/app.py`. -/
def MIN_MESSAGE_LENGTH : Nat := 1

/-- `text.strip()`: drop leading and trailing whitespace. -/
def pyStrip (l : Str) : Str :=
  (((l.dropWhile pyIsSpace).reverse).dropWhile pyIsSpace).reverse

/-- The injection blacklist of `validate_message`:
`re.search(r'<script|javascript:|onerror=', text, re.IGNORECASE)`. -/
def hasInjection (l : Str) : Bool :=
  let low := toLowerStr l
  containsSub (chars "<script") low ||
  containsSub (chars "javascript:") low ||
  containsSub (chars "onerror=") low

/-- `MessageValidator.validate_message` (src/app.py, lines 47-63).
Returns `(is_valid, error_message)`; an empty error message on success. -/
def validate_message (text : Str) : Bool × Str :=
  if text = [] ∨ pyStrip text = [] then
    (false, chars "Message cannot be empty")
  else if text.length > MAX_MESSAGE_LENGTH then
    (false, chars "Message exceeds 1000 characters")
  else if text.length < MIN_MESSAGE_LENGTH then
    (false, chars "Message too short")
  else if hasInjection text then
    (false, chars "Invalid message format")
  else
    (true, [])

/-- The `re.sub(r'\s+', ' ', text)` step of `sanitize_message`: replace every
maximal run of whitespace with a single space.  `inRun` records whether the
previous character belonged to a whitespace run (in which case further
whitespace is dropped rather than emitting another space). -/
def collapseAux (inRun : Bool) : Str → Str
  | [] => []
  | c :: rest =>
    if pyIsSpace c then
      (if inRun then [] else [' ']) ++ collapseAux true rest
    else c :: collapseAux false rest

/-- `re.sub(r'\s+', ' ', text)`. -/
def collapseWS (l : Str) : Str := collapseAux false l

/-- `MessageValidator.sanitize_message` (src/app.py, lines 65-70):
strip, then normalize internal whitespace. -/
def sanitize_message (text : Str) : Str :=
  collapseWS (pyStrip text)

-- ==================== RasaIntentClassifier ====================

/-- An extracted-entity record (`{entity, value, start, end, confidence}` in the
spec's data model; `end` is renamed `stop` because `end` is a Lean keyword).
`RasaIntentClassifier` in `src/app.py` never constructs one: its `entities`
field is always the empty list. -/
structure Entity where
  entity : Str
  value : Str
  start : Nat
  stop : Nat
  confidence : ℚ
deriving DecidableEq

/-- The classifier's result dictionary. -/
structure IntentResult where
  intent : Str
  confidence : ℚ
  entities : List Entity
  text : Str
  source : Str
deriving DecidableEq

/-- The `intent_keywords` table of `RasaIntentClassifier._fallback_classify`
(src/app.py, lines 328-334), in Python dict insertion order. -/
def intent_keywords : List (Str × List Str) :=
  [ (chars "order_status",
      [chars "order", chars "status", chars "track", chars "where",
       chars "deliver", chars "shipped"]),
    (chars "product_info",
      [chars "product", chars "price", chars "specs", chars "available",
       chars "feature", chars "cost"]),
    (chars "return_refund",
      [chars "return", chars "refund", chars "exchange", chars "back",
       chars "money"]),
    (chars "troubleshooting",
      [chars "broken", chars "not work", chars "issue", chars "problem",
       chars "error", chars "help"]),
    (chars "shipping",
      [chars "shipping", chars "delivery", chars "address",
       chars "destination", chars "transport"]) ]

/-- One intent's keywords match when any keyword is a substring of the
lower-cased text: `any(kw in text_lower for kw in keywords)`. -/
def anyKeywordIn (kws : List Str) (low : Str) : Bool :=
  kws.any (fun kw => containsSub kw low)

/-- The `for intent, keywords in intent_keywords.items()` loop: the first
table entry with any matching keyword wins. -/
def firstMatch (low : Str) : List (Str × List Str) → Option Str
  | [] => none
  | (i, kws) :: rest =>
    if anyKeywordIn kws low then some i else firstMatch low rest

/-- The fallback result of `_fallback_classify` (no keyword matched). -/
def fallbackResult (text : Str) : IntentResult :=
  ⟨chars "general_inquiry", 6/10, [], text, chars "fallback"⟩

/-- `RasaIntentClassifier._fallback_classify` (src/app.py, lines 326-354). -/
def fallback_classify (text : Str) : IntentResult :=
  let low := toLowerStr text
  match firstMatch low intent_keywords with
  | some i => ⟨i, 85/100, [], text, chars "keyword_match"⟩
  | none => fallbackResult text

/-- `RasaIntentClassifier.classify_intent` (src/app.py, lines 322-324):
delegates unconditionally to `_fallback_classify`. -/
def classify_intent (text : Str) : IntentResult :=
  fallback_classify text

-- ==================== Session metadata ====================

/-- The dictionary returned by `Neo4jSessionManager._fetch_session_metadata`
(src/app.py, lines 256-279); timestamps are modelled as logical-clock values. -/
structure SessionMeta where
  session_id : Str
  created_at : Nat
  last_interaction : Nat
  interaction_count : Nat
  user_intent : Option Str
  topic : Option Str
  status : Str
deriving DecidableEq

-- ==================== ContextAwareResponseGenerator ====================

/-- One intent's template set in `ContextAwareResponseGenerator.intent_responses`
(src/app.py, lines 386-457).  Every intent in the source table has a
`first_ask` and a `followup` bucket; only `order_status` has
`with_order_number`, hence that field is optional. -/
structure ResponsePool where
  first_ask : List Str
  followup : List Str
  with_order_number : Option (List Str)
deriving DecidableEq

/-- The `order_status` template set. -/
def order_status_pool : ResponsePool :=
  { first_ask :=
      [chars "I'd be happy to help you track your order! Could you please provide your order number?",
       chars "Let me help you check the status of your order. What's your order number?"],
    followup :=
      [chars "Thank you! I found your order. It's currently in transit and should arrive within 3-5 business days.",
       chars "Got it! Your order has been shipped and is on its way to you. You should receive it soon.",
       chars "Your order is being prepared for shipment. We'll send you a tracking number as soon as it ships!"],
    with_order_number := some
      [chars "Order {order} is currently in transit. Expected delivery is within 3-5 business days.",
       chars "I found order {order}. It's been shipped and you should see it arrive soon."] }

/-- The `product_info` template set. -/
def product_info_pool : ResponsePool :=
  { first_ask :=
      [chars "I'd be happy to help! Which product would you like to learn more about?",
       chars "What product interests you? I can give you all the details."],
    followup :=
      [chars "That's a popular choice! We have great reviews on that product. Would you like to know more about pricing or availability?",
       chars "That product is in stock and ready to ship! Is there anything specific you'd like to know about it?",
       chars "We have several options available. Would you like pricing information or details about features?"],
    with_order_number := none }

/-- The `return_refund` template set. -/
def return_refund_pool : ResponsePool :=
  { first_ask :=
      [chars "I'm sorry you'd like to return something. I can definitely help with that. What's your order number?",
       chars "I can help process a return for you. Could you provide your order number?"],
    followup :=
      [chars "Thank you for that information. You're within our 30-day return window, so I can help process this for you.",
       chars "I can process that return for you. Here's what happens next: we'll send you a return label, you pack the item and drop it off at any shipping location.",
       chars "Your return request is approved. You'll receive a return label via email. Once we receive the item back, your refund will be processed within 5-7 business days."],
    with_order_number := none }

/-- The `troubleshooting` template set. -/
def troubleshooting_pool : ResponsePool :=
  { first_ask :=
      [chars "I'm sorry you're experiencing an issue. What exactly is happening?",
       chars "I'd like to help fix this. Can you describe what's going wrong?"],
    followup :=
      [chars "I understand. Let's troubleshoot this together. First, have you tried refreshing the page or restarting your device?",
       chars "That sounds frustrating. A few things to try: clear your browser cache, try a different browser, or contact our support team for personalized help.",
       chars "This might be a technical issue on our end. Let me escalate this to our support team. You'll hear back within 24 hours with a solution."],
    with_order_number := none }

/-- The `shipping` template set. -/
def shipping_pool : ResponsePool :=
  { first_ask :=
      [chars "I can help with shipping questions! What would you like to know?",
       chars "Do you have a question about shipping? I'm here to help."],
    followup :=
      [chars "We offer standard shipping (5-7 days) and express shipping (2-3 days). Which option works best for you?",
       chars "We typically ship within 1-2 business days. Standard delivery is 5-7 days, or you can choose express for 2-3 days.",
       chars "We offer free shipping on orders over $50! Standard shipping is 5-7 business days. Would you like express shipping instead?"],
    with_order_number := none }

/-- The `general_inquiry` template set. -/
def general_inquiry_pool : ResponsePool :=
  { first_ask :=
      [chars "Hello! How can I assist you today?",
       chars "Welcome! What can I help you with?"],
    followup :=
      [chars "I understand. Let me help you with that.",
       chars "That's a great question. Here's what I can tell you...",
       chars "Thanks for asking! Is there anything else I can help you with?"],
    with_order_number := none }

/-- The full `intent_responses` table, in Python dict insertion order. -/
def intent_responses : List (Str × ResponsePool) :=
  [ (chars "order_status", order_status_pool),
    (chars "product_info", product_info_pool),
    (chars "return_refund", return_refund_pool),
    (chars "troubleshooting", troubleshooting_pool),
    (chars "shipping", shipping_pool),
    (chars "general_inquiry", general_inquiry_pool) ]

/-- `self.intent_responses.get(intent, self.intent_responses['general_inquiry'])`:
the template set for an intent, defaulting to `general_inquiry` for unknown
keys.  (The source's `if not intent: intent = 'general_inquiry'` handles a
`None` intent; callers in the engine always pass the classifier's string, and
an empty string is not a table key, so it also lands on the default.) -/
def getPool (intent : Str) : ResponsePool :=
  ((intent_responses.find? (fun p => p.1 == intent)).map (fun p => p.2)).getD
    general_inquiry_pool

/-- The `related_intents` table of `_is_followup_question`
(src/app.py, lines 500-504). -/
def related_intents : List (Str × List Str) :=
  [ (chars "order_status", [chars "shipping", chars "return_refund"]),
    (chars "product_info", [chars "return_refund"]),
    (chars "return_refund", [chars "order_status", chars "shipping"]) ]

/-- `ContextAwareResponseGenerator._is_followup_question`
(src/app.py, lines 486-513).  Python truthiness is modelled faithfully: the
metadata branch requires the metadata to be present and `user_intent` to be a
non-`None`, non-empty string. -/
def is_followup_question (context_history : List Str) (current_intent : Str)
    (session_metadata : Option SessionMeta) : Bool :=
  if context_history.isEmpty then false
  else
    let metaSays : Bool :=
      match session_metadata with
      | some m =>
        match m.user_intent with
        | some previous_intent =>
          if previous_intent.isEmpty then false
          else if previous_intent == current_intent then true
          else
            match related_intents.find? (fun p => p.1 == previous_intent) with
            | some p => p.2.any (fun i => i == current_intent)
            | none => false
        | none => false
      | none => false
    if metaSays then true
    else if context_history.length ≥ 2 then true
    else false

/-- Scanner for `re.search(r'#?(\d{4,})', s)`: `acc` accumulates the digit run
currently being read (in reverse).  The regex returns group 1 of the leftmost
match; since `#?` is optional and contributes nothing to group 1, and `\d{4,}`
is greedy, group 1 is exactly the first maximal run of at least four
consecutive digits. -/
def digitRunAux (acc : Str) : Str → Option Str
  | [] => if acc.length ≥ 4 then some acc.reverse else none
  | c :: rest =>
    if pyIsDigit c then digitRunAux (c :: acc) rest
    else if acc.length ≥ 4 then some acc.reverse
    else digitRunAux [] rest

/-- Group 1 of `re.search(r'#?(\d{4,})', l)`, or `none` if there is no match. -/
def digitRun (l : Str) : Option Str := digitRunAux [] l

/-- The context scan of `_extract_order_number`: first message containing a
qualifying digit run wins, in order. -/
def firstRunIn : List Str → Option Str
  | [] => none
  | m :: rest =>
    match digitRun m with
    | some r => some r
    | none => firstRunIn rest

/-- `ContextAwareResponseGenerator._extract_order_number`
(src/app.py, lines 540-554): search the user input, then each context message
in order. -/
def extract_order_number (user_input : Str) (context_history : List Str) :
    Option Str :=
  match digitRun user_input with
  | some r => some r
  | none => firstRunIn context_history

/-- Drop `pat` from the front of `l` if `l` starts with it. -/
def stripPre : Str → Str → Option Str
  | [], l => some l
  | _ :: _, [] => none
  | p :: ps, c :: cs => if p == c then stripPre ps cs else none

/-- Fuel-indexed body of `str.replace`: replace each non-overlapping occurrence
of `pat`, left to right.  The fuel is the length of the remaining text, which
strictly bounds the recursion whenever `pat` is non-empty. -/
def replaceAllFuel (pat rep : Str) : Nat → Str → Str
  | _, [] => []
  | 0, l => l
  | fuel + 1, c :: rest =>
    match stripPre pat (c :: rest) with
    | some rem => rep ++ replaceAllFuel pat rep fuel rem
    | none => c :: replaceAllFuel pat rep fuel rest

/-- Python `text.replace(pat, rep)` for a non-empty `pat` (the only use in the
source is the fixed literal `"{order}"`). -/
def replaceAll (pat rep l : Str) : Str :=
  if pat.isEmpty then l else replaceAllFuel pat rep l.length l

/-- `response.replace('{order}', order_number)` (src/app.py, line 479). -/
def substOrder (template order_number : Str) : Str :=
  replaceAll (chars "{order}") order_number template

/-- The deterministic part of `ContextAwareResponseGenerator.generate_response`
(src/app.py, lines 458-485): the *bucket* of candidate replies from which
`random.choice` picks.  The three branches mirror the source exactly:
`if is_followup and order_number and 'with_order_number' in response_pool`,
`elif is_followup` (using `response_pool.get('followup', first_ask)`; every
pool in the table has a `followup` bucket), `else` `first_ask`. -/
def generate_response_bucket (user_input : Str) (context_history : List Str)
    (intent : Str) (session_metadata : Option SessionMeta) : List Str :=
  let response_pool := getPool intent
  let is_followup := is_followup_question context_history intent session_metadata
  let order_number := extract_order_number user_input context_history
  match is_followup, order_number, response_pool.with_order_number with
  | true, some n, some bucket => bucket.map (fun t => substOrder t n)
  | true, _, _ => response_pool.followup
  | false, _, _ => response_pool.first_ask

/-- `ContextAwareResponseGenerator.generate_response` with the randomness of
`random.choice` made explicit as a choice function. -/
def generate_response (choose : List Str → Str) (user_input : Str)
    (context_history : List Str) (intent : Str)
    (session_metadata : Option SessionMeta) : Str :=
  choose (generate_response_bucket user_input context_history intent
    session_metadata)

-- ==================== Neo4jSessionManager (store model) ====================

/-- `len(text.split())`: the number of maximal non-whitespace runs. -/
def countTokensAux (inTok : Bool) : Str → Nat
  | [] => 0
  | c :: rest =>
    if pyIsSpace c then countTokensAux false rest
    else (if inTok then 0 else 1) + countTokensAux true rest

/-- `token_count = len(text.split())` in `_add_message_node`. -/
def countTokens (l : Str) : Nat := countTokensAux false l

/-- A `Message` node as stored by `_add_message_node` (src/app.py, lines
162-195); `timestamp` is a logical clock, `entities` the flattened
entity-type → value dictionary the engine passes. -/
structure Message where
  sender : Str
  text : Str
  intent : Option Str
  entities : List (Str × Str)
  timestamp : Nat
  token_count : Nat
deriving DecidableEq

/-- The graph database state: sessions and their messages, plus a logical
clock standing in for `datetime()`.  Messages are kept globally in creation
order, tagged with their session id (the `HAS_MESSAGE` relationship). -/
structure DB where
  sessions : List (Str × SessionMeta)
  messages : List (Str × Message)
  clock : Nat
deriving DecidableEq

/-- Apply `f` to the session node matched by `session_id` (Cypher `MATCH ...
SET`): a no-op when no node matches. -/
def mapSession (sid : Str) (f : SessionMeta → SessionMeta)
    (l : List (Str × SessionMeta)) : List (Str × SessionMeta) :=
  l.map (fun p => if p.1 == sid then (p.1, f p.2) else p)

/-- `Neo4jSessionManager.get_session_metadata` (src/app.py, lines 243-279). -/
def get_session_metadata (db : DB) (sid : Str) : Option SessionMeta :=
  (db.sessions.find? (fun p => p.1 == sid)).map (fun p => p.2)

/-- The messages of one session, oldest first. -/
def sessionMessages (db : DB) (sid : Str) : List Message :=
  (db.messages.filter (fun p => p.1 == sid)).map (fun p => p.2)

/-- `Neo4jSessionManager.get_conversation_context` (src/app.py, lines
197-241): the query orders by timestamp descending, limits to `n`, and the
Python code reverses the page — i.e. the most recent `n` messages, oldest
first.  A missing session yields the empty list. -/
def get_conversation_context (db : DB) (sid : Str) (n : Nat) : List Message :=
  (((sessionMessages db sid).reverse).take n).reverse

/-- `Neo4jSessionManager.add_message` / `_add_message_node` (src/app.py, lines
142-195): `MATCH` the session, `CREATE` the message, bump
`interaction_count`, refresh `last_interaction`.  When the session does not
exist the `MATCH` finds nothing and the write is a no-op (Cypher semantics;
the Python layer still returns an id without error). -/
def add_message (db : DB) (sid sender text : Str) (intent : Option Str)
    (entities : List (Str × Str)) : DB :=
  if (db.sessions.find? (fun p => p.1 == sid)).isSome then
    { sessions := mapSession sid
        (fun m => { m with interaction_count := m.interaction_count + 1,
                           last_interaction := db.clock }) db.sessions,
      messages := db.messages ++
        [(sid, ⟨sender, text, intent, entities, db.clock, countTokens text⟩)],
      clock := db.clock + 1 }
  else db

/-- `Neo4jSessionManager.update_session_intent` / `_update_intent`
(src/app.py, lines 281-303): `SET s.user_intent = $intent,
s.topic = coalesce($topic, s.topic)` — the topic is changed only when a
non-null topic argument is supplied. -/
def update_session_intent (db : DB) (sid intent : Str) (topic : Option Str) :
    DB :=
  let upd : SessionMeta → SessionMeta := fun m =>
    { m with user_intent := some intent,
             topic := (match topic with
                       | some t => some t
                       | none => m.topic) }
  { db with sessions := mapSession sid upd db.sessions }

-- ==================== DialogueEngine ====================

/-- A store access performed by `DialogueEngine.process_message`, recorded in
call order. -/
inductive StoreOp where
  | getContext
  | getMetadata
  | addUserMessage
  | updateIntent
  | addBotMessage
deriving DecidableEq

/-- The result dictionary of `DialogueEngine.process_message`.  Optional
fields model keys absent from the returned Python dict on some paths (the
validation-failure dict carries only `status` and `error`). -/
structure ProcResult where
  status : Str
  error : Option Str
  session_id : Option Str
  bot_response : Option Str
  intent : Option Str
  confidence : Option ℚ
  entities : List (Str × Str)
  is_followup : Option Bool
  context_messages : Option Nat
deriving DecidableEq

/-- The entity dictionary the engine builds:
`{e.get('entity', 'unknown'): e.get('value', '') for e in entities}`.
(The classifier's entity list is always empty, so key collisions of the dict
comprehension cannot arise.) -/
def entityDict (es : List Entity) : List (Str × Str) :=
  es.map (fun e => (e.entity, e.value))

/-- `Config.CONTEXT_WINDOW_SIZE`. -/
def CONTEXT_WINDOW_SIZE : Nat := 6

/-- `DialogueEngine.process_message` (src/app.py, lines 568-640), as a pure
state transformer.  Returns the result dictionary, the final store state, and
the trace of store calls.  `choose` stands for `random.choice` inside the
response generator.  The `except` branch of the source is unreachable in this
model because every modelled step is total. -/
def process_message (choose : List Str → Str) (db : DB)
    (session_id user_message : Str) : ProcResult × DB × List StoreOp :=
  let v := validate_message user_message
  if v.1 = false then
    ({ status := chars "error", error := some v.2, session_id := none,
       bot_response := none, intent := none, confidence := none,
       entities := [], is_followup := none, context_messages := none },
     db, [])
  else
    let sanitized_message := sanitize_message user_message
    let intent_result := classify_intent sanitized_message
    let intent := intent_result.intent
    let confidence := intent_result.confidence
    let entities := intent_result.entities
    let context_history :=
      get_conversation_context db session_id CONTEXT_WINDOW_SIZE
    let session_metadata := get_session_metadata db session_id
    let db1 := add_message db session_id (chars "user") sanitized_message
      (some intent) (entityDict entities)
    let db2 := update_session_intent db1 session_id intent none
    let bot_response := generate_response choose sanitized_message
      (context_history.map (fun m => m.text)) intent session_metadata
    let db3 := add_message db2 session_id (chars "bot") bot_response
      (some (chars "response_to_" ++ intent)) []
    ({ status := chars "success", error := none,
       session_id := some session_id, bot_response := some bot_response,
       intent := some intent, confidence := some confidence,
       entities := entityDict entities,
       is_followup := some (decide (context_history.length > 0)),
       context_messages := some context_history.length },
     db3,
     [StoreOp.getContext, StoreOp.getMetadata, StoreOp.addUserMessage,
      StoreOp.updateIntent, StoreOp.addBotMessage])

-- ==================== Spec-side comparison definitions ====================

/-- The number of an intent's keywords appearing as substrings of the
lower-cased text — the counting step the spec attributes to the classifier
(spec §4.2 "Intent scoring"). -/
def spec_matched_count (kws : List Str) (low : Str) : Nat :=
  (kws.filter (fun kw => containsSub kw low)).length

/-- Modelled from the spec's words (spec §4.2 / claim C1): score every intent
by matched-keyword count, let the highest non-zero count win with ties broken
by declaration order, and set confidence to
`min(0.85 + 0.05 × matched-keyword-count, 0.95)`; with no non-zero score,
fall back to `general_inquiry` at confidence 0.6.  This is the comparison
definition for claim C1, to be held against `classify_intent`. -/
def spec_classify (t : Str) : Str × ℚ :=
  let low := toLowerStr t
  let scored := intent_keywords.map (fun p => (p.1, spec_matched_count p.2 low))
  match scored with
  | [] => (chars "general_inquiry", 6/10)
  | x :: xs =>
    let best := xs.foldl (fun a b => if b.2 > a.2 then b else a) x
    if 0 < best.2 then
      (best.1, min (85/100 + (best.2 : ℚ) * (5/100)) (95/100))
    else
      (chars "general_inquiry", 6/10)

/-- Modelled from the spec's words (spec §4.4 step 1): the two fixed
related-intent groups used by the topic-shift rule. -/
def spec_groups : List (List Str) :=
  [ [chars "order_status", chars "shipping", chars "return_refund"],
    [chars "product_info", chars "return_refund"] ]

/-- Two intents share a related group. -/
def spec_same_topic (a b : Str) : Bool :=
  spec_groups.any (fun g => g.contains a && g.contains b)

/-- Modelled from the spec's words (claim C3): a topic shift happens exactly
when a previous intent is recorded, differs from the current intent, and
shares no related group with it. -/
def spec_topic_shift (current : Str) (previous : Option Str) : Bool :=
  match previous with
  | none => false
  | some p => !(p == current) && !(spec_same_topic current p)

/-- Claim C3 at one input: a (necessarily non-empty, else "applying" it would
be vacuous) topic-shift prefix is prepended to every candidate reply — i.e.
every member of the generated bucket is that fixed prefix followed by a member
of the intent's unprefixed bucket — if and only if the spec's topic-shift
condition holds between the current intent and the session's recorded one. -/
def claimC3At (user_input : Str) (ctx : List Str) (intent : Str)
    (meta : Option SessionMeta) : Prop :=
  ((∃ p : Str, p ≠ [] ∧
      ∀ r ∈ generate_response_bucket user_input ctx intent meta,
        ∃ b ∈ generate_response_bucket user_input ctx intent meta,
          r = p ++ b) ↔
    spec_topic_shift intent
      (match meta with
       | some m => m.user_intent
       | none => none) = true)

/-- Claim C4 as stated: whenever an order number is available and the
intent's template set has an order-specific bucket, the reply bucket is that
bucket with `{order}` substituted — *regardless* of follow-up status. -/
def claimC4 : Prop :=
  ∀ (ui : Str) (ctx : List Str) (intent : Str) (meta : Option SessionMeta)
    (n : Str) (ob : List Str),
    extract_order_number ui ctx = some n →
    (getPool intent).with_order_number = some ob →
    generate_response_bucket ui ctx intent meta =
      ob.map (fun t => substOrder t n)

/-- Claim C5 as stated: on every successfully processed turn the stored topic
ends up equal to the classified intent. -/
def claimC5 : Prop :=
  ∀ (choose : List Str → Str) (db : DB) (sid msg : Str),
    (process_message choose db sid msg).1.status = chars "success" →
    (get_session_metadata (process_message choose db sid msg).2.1 sid).map
        SessionMeta.topic =
      some (process_message choose db sid msg).1.intent

/-- Modelled from the claim's words (claim C10): the maximal runs of
consecutive digits of a string, in order (`acc` holds the run being read, in
reverse). -/
def digitRunsAux (acc : Str) : Str → List Str
  | [] => if acc.isEmpty then [] else [acc.reverse]
  | c :: rest =>
    if pyIsDigit c then digitRunsAux (c :: acc) rest
    else if acc.isEmpty then digitRunsAux [] rest
    else acc.reverse :: digitRunsAux [] rest

/-- The maximal digit runs of a string, in order. -/
def digitRuns (l : Str) : List Str := digitRunsAux [] l

-- ==================== Helper predicates for the sanitize proofs ==========

/-- The first character is whitespace. -/
def headSp : Str → Bool
  | [] => false
  | c :: _ => pyIsSpace c

/-- The last character is whitespace. -/
def lastSp (l : Str) : Bool := headSp l.reverse

/-- Every whitespace character is a single `' '` not followed by further
whitespace: the shape `collapseWS` produces. -/
def spIsolated : Str → Bool
  | [] => true
  | c :: rest => (!pyIsSpace c || (c == ' ' && !headSp rest)) && spIsolated rest

/-- A concrete deterministic stand-in for `random.choice`, used in witnesses
and counterexamples. -/
def chooseHead (l : List Str) : Str := l.headD []

/-- A one-session store state used by witnesses and counterexamples. -/
def sampleMeta : SessionMeta :=
  { session_id := chars "s1", created_at := 0, last_interaction := 0,
    interaction_count := 0, user_intent := none, topic := none,
    status := chars "active" }

/-- A store holding the single fresh session `s1`. -/
def sampleDB : DB :=
  { sessions := [(chars "s1", sampleMeta)], messages := [], clock := 1 }

-- ==================== Helper lemmas ====================

/-- If the keyword loop finds an intent, the table splits at that intent, its
keywords match, and no earlier intent's keywords do. -/
theorem firstMatch_some_decomp (low : Str) :
    ∀ (table : List (Str × List Str)) (i : Str), firstMatch low table = some i →
      ∃ pre kws post, table = pre ++ (i, kws) :: post ∧
        anyKeywordIn kws low = true ∧
        ∀ q ∈ pre, anyKeywordIn q.2 low = false := by
  intro table
  induction table with
  | nil => intro i h; simp [firstMatch] at h
  | cons p rest ih =>
    intro i h
    obtain ⟨pi, pkws⟩ := p
    by_cases hm : anyKeywordIn pkws low = true
    · refine ⟨[], pkws, rest, ?_, hm, by simp⟩
      simp only [firstMatch, hm, if_true] at h
      simp [Option.some_inj.mp h]
    · simp only [firstMatch, hm, if_false, Bool.not_eq_true] at h
      obtain ⟨pre, kws, post, hsplit, hany, hpre⟩ :=
        ih i (by simpa [firstMatch, hm] using h)
      refine ⟨(pi, pkws) :: pre, kws, post, by simp [hsplit], hany, ?_⟩
      intro q hq
      rcases List.mem_cons.mp hq with hq | hq
      · subst hq; simpa using hm
      · exact hpre q hq

/-- If the keyword loop finds nothing, no intent's keywords match. -/
theorem firstMatch_none_all (low : Str) :
    ∀ (table : List (Str × List Str)), firstMatch low table = none →
      ∀ q ∈ table, anyKeywordIn q.2 low = false := by
  intro table
  induction table with
  | nil => intro _ q hq; simp at hq
  | cons p rest ih =>
    intro h q hq
    obtain ⟨pi, pkws⟩ := p
    by_cases hm : anyKeywordIn pkws low = true
    · simp [firstMatch, hm] at h
    · rcases List.mem_cons.mp hq with hq | hq
      · subst hq; simpa using hm
      · exact ih (by simpa [firstMatch, hm] using h) q hq

/-- "Some keyword matches" is the same as "the matched-keyword count is
positive". -/
theorem anyKeywordIn_iff_count (kws : List Str) (low : Str) :
    anyKeywordIn kws low = true ↔ 0 < spec_matched_count kws low := by
  constructor
  · intro h
    obtain ⟨kw, hkw, hc⟩ := List.any_eq_true.mp h
    have : kw ∈ kws.filter (fun kw => containsSub kw low) :=
      List.mem_filter.mpr ⟨hkw, hc⟩
    exact List.length_pos.mpr (List.ne_nil_of_mem this)
  · intro h
    obtain ⟨kw, hkw⟩ := List.exists_mem_of_length_pos h
    have := List.mem_filter.mp hkw
    exact List.any_eq_true.mpr ⟨kw, this.1, this.2⟩

/-- "No keyword matches" is the same as "the matched-keyword count is zero". -/
theorem anyKeywordIn_false_iff_count (kws : List Str) (low : Str) :
    anyKeywordIn kws low = false ↔ spec_matched_count kws low = 0 := by
  rw [← Bool.not_eq_true, anyKeywordIn_iff_count]
  omega

/-- Unfolding lemma for the classifier. -/
theorem classify_intent_eq (t : Str) :
    classify_intent t =
      match firstMatch (toLowerStr t) intent_keywords with
      | some i => ⟨i, 85/100, [], t, chars "keyword_match"⟩
      | none => fallbackResult t := rfl

/-- Unfolding lemma for the response bucket selection. -/
theorem generate_response_bucket_eq (ui : Str) (ctx : List Str) (intent : Str)
    (meta : Option SessionMeta) :
    generate_response_bucket ui ctx intent meta =
      match is_followup_question ctx intent meta, extract_order_number ui ctx,
            (getPool intent).with_order_number with
      | true, some n, some bucket => bucket.map (fun t => substOrder t n)
      | true, _, _ => (getPool intent).followup
      | false, _, _ => (getPool intent).first_ask := rfl

/-- The regex scanner agrees, run by run, with "first maximal digit run of
length at least four": starting from any partially-read run `acc`, the
scanner's answer is the first qualifying run among the runs the decomposition
produces from the same state. -/
theorem digitRunAux_eq_find :
    ∀ (l : Str) (acc : Str),
      digitRunAux acc l =
        (digitRunsAux acc l).find? (fun r => decide (4 ≤ r.length)) := by
  intro l
  induction l with
  | nil =>
    intro acc
    by_cases he : acc.isEmpty
    · have : acc = [] := by
        cases acc with
        | nil => rfl
        | cons a as => simp [List.isEmpty] at he
      subst this
      rfl
    · simp only [digitRunAux, digitRunsAux, he, if_false, List.find?]
      by_cases h4 : 4 ≤ acc.length
      · simp [h4, ge_iff_le, List.length_reverse]
      · simp [h4, ge_iff_le, List.length_reverse]
  | cons c rest ih =>
    intro acc
    by_cases hd : pyIsDigit c = true
    · simp only [digitRunAux, digitRunsAux, hd, if_true]
      exact ih (c :: acc)
    · simp only [digitRunAux, digitRunsAux, hd, Bool.false_eq_true, if_false]
      by_cases he : acc.isEmpty
      · have hlen : ¬ (acc.length ≥ 4) := by
          cases acc with
          | nil => simp
          | cons a as => simp [List.isEmpty] at he
        simp only [he, if_true, hlen, if_false]
        exact ih []
      · simp only [he, if_false, List.find?]
        by_cases h4 : acc.length ≥ 4
        · simp [h4, ge_iff_le, List.length_reverse]
        · simp only [ge_iff_le, List.length_reverse] at h4 ⊢
          simp [h4, ih []]

-- ==================== Claim C10 ====================

/-- **Claim C10, confirmed.**  Order-number extraction is exactly: the first
maximal run of four or more consecutive digits in the user input (the optional
`#` of the regex `#?(\d{4,})` contributes nothing to the captured group);
failing that, the first such run found scanning the context messages in
order; any qualifying run — e.g. the year of a date — is accepted
(the generator receives no classifier entities at all); and with no such run
anywhere, the reply bucket is never the order-specific one. -/
theorem c10_order_extraction :
    (∀ l : Str, digitRun l =
        (digitRuns l).find? (fun r => decide (4 ≤ r.length))) ∧
    (∀ (u : Str) (ctx : List Str) (r : Str),
        digitRun u = some r → extract_order_number u ctx = some r) ∧
    (∀ (u : Str) (ctx : List Str),
        digitRun u = none → extract_order_number u ctx = firstRunIn ctx) ∧
    (∀ (m : Str) (ctx : List Str),
        firstRunIn (m :: ctx) =
          (match digitRun m with
           | some r => some r
           | none => firstRunIn ctx)) ∧
    (∀ (ui : Str) (ctx : List Str) (intent : Str) (meta : Option SessionMeta),
        extract_order_number ui ctx = none →
        generate_response_bucket ui ctx intent meta = (getPool intent).followup ∨
        generate_response_bucket ui ctx intent meta = (getPool intent).first_ask) ∧
    (extract_order_number (chars "no digits here")
        [chars "ab 123", chars "order 9981 here", chars "x 7777"] =
      some (chars "9981")) ∧
    (generate_response_bucket (chars "will it arrive by 12/25/2024?")
        [chars "hi", chars "hello"] (chars "order_status") none =
      [chars "Order {order} is currently in transit. Expected delivery is within 3-5 business days.",
       chars "I found order {order}. It's been shipped and you should see it arrive soon."].map
        (fun t => substOrder t (chars "2024"))) := by
  refine ⟨fun l => digitRunAux_eq_find l [], ?_, ?_, fun m ctx => rfl, ?_,
    by decide, by decide⟩
  · intro u ctx r h
    unfold extract_order_number
    rw [h]
  · intro u ctx h
    unfold extract_order_number
    rw [h]
  · intro ui ctx intent meta h
    rw [generate_response_bucket_eq, h]
    cases is_followup_question ctx intent meta with
    | true =>
      left
      cases (getPool intent).with_order_number <;> rfl
    | false =>
      right
      cases (getPool intent).with_order_number <;> rfl

/-- Closed instance of claim C10's theorem at a concrete input. -/
theorem c10_order_extraction_witness :
    extract_order_number (chars "order 55555 status") [] =
      some (chars "55555") :=
  c10_order_extraction.2.1 (chars "order 55555 status") [] (chars "55555")
    (by decide)

/-- `get_session_metadata` on an explicit store value. -/
theorem get_session_metadata_mk (ss : List (Str × SessionMeta))
    (ms : List (Str × Message)) (ck : Nat) (sid : Str) :
    get_session_metadata ⟨ss, ms, ck⟩ sid =
      (ss.find? (fun p => p.1 == sid)).map (fun p => p.2) := rfl

/-- `find?` over a per-key map: mapping the matched session maps the found
entry. -/
theorem find_mapSession (sid : Str) (f : SessionMeta → SessionMeta) :
    ∀ l : List (Str × SessionMeta),
      (mapSession sid f l).find? (fun p => p.1 == sid) =
        (l.find? (fun p => p.1 == sid)).map (fun p => (p.1, f p.2)) := by
  intro l
  induction l with
  | nil => rfl
  | cons p rest ih =>
    simp only [mapSession, List.map_cons] at ih ⊢
    cases h : (p.1 == sid) with
    | true => simp [List.find?_cons, h]
    | false =>
      rw [if_neg (by simp [h])]
      simp only [List.find?_cons, h]
      exact ih

/-- Adding a message to an existing session only bumps its interaction count
and refreshes its last-interaction time. -/
theorem meta_add_message (db : DB) (sid sender text : Str) (intent : Option Str)
    (ent : List (Str × Str)) (m : SessionMeta)
    (hm : get_session_metadata db sid = some m) :
    get_session_metadata (add_message db sid sender text intent ent) sid =
      some { m with interaction_count := m.interaction_count + 1,
                    last_interaction := db.clock } := by
  have hs : (db.sessions.find? (fun p => p.1 == sid)).isSome := by
    unfold get_session_metadata at hm
    cases hfind : db.sessions.find? (fun p => p.1 == sid) with
    | none => rw [hfind] at hm; simp at hm
    | some p => simp
  unfold add_message
  rw [if_pos hs, get_session_metadata_mk, find_mapSession]
  unfold get_session_metadata at hm
  cases hfind : db.sessions.find? (fun p => p.1 == sid) with
  | none => rw [hfind] at hm; simp at hm
  | some p =>
    rw [hfind] at hm
    have hpm : p.2 = m := by simpa using hm
    simp [hpm]

/-- `update_session_intent` sets `user_intent` and applies the `coalesce`
rule to `topic`: it changes the topic only when a non-null topic argument is
supplied. -/
theorem meta_update_session (db : DB) (sid i : Str) (t : Option Str)
    (m : SessionMeta) (hm : get_session_metadata db sid = some m) :
    get_session_metadata (update_session_intent db sid i t) sid =
      some { m with user_intent := some i,
                    topic := (match t with
                              | some x => some x
                              | none => m.topic) } := by
  unfold update_session_intent get_session_metadata
  rw [find_mapSession]
  unfold get_session_metadata at hm
  cases hfind : db.sessions.find? (fun p => p.1 == sid) with
  | none => rw [hfind] at hm; simp at hm
  | some p =>
    rw [hfind] at hm
    have hpm : p.2 = m := by simpa using hm
    simp [hpm]

/-- On a valid message, the final store state is the bot-turn write applied
after the intent update applied after the user-turn write. -/
theorem process_db_eq (choose : List Str → Str) (db : DB) (sid msg : Str)
    (hv : (validate_message msg).1 = true) :
    (process_message choose db sid msg).2.1 =
      add_message
        (update_session_intent
          (add_message db sid (chars "user") (sanitize_message msg)
            (some (classify_intent (sanitize_message msg)).intent)
            (entityDict (classify_intent (sanitize_message msg)).entities))
          sid (classify_intent (sanitize_message msg)).intent none)
        sid (chars "bot")
        (generate_response choose (sanitize_message msg)
          ((get_conversation_context db sid CONTEXT_WINDOW_SIZE).map
            (fun m => m.text))
          (classify_intent (sanitize_message msg)).intent
          (get_session_metadata db sid))
        (some (chars "response_to_" ++ (classify_intent (sanitize_message msg)).intent))
        [] := by
  have h' : ¬ ((validate_message msg).1 = false) := by simp [hv]
  simp [process_message, h']

-- ==================== Claim C1 ====================

/-- **Counterexample to claim C1.**  On `"track my refund money back"`,
`return_refund` has three matched keywords (`refund`, `back`, `money`) and
`order_status` only one (`track`), so the claimed count-argmax classifier
(`spec_classify`, transcribed from the claim) returns `return_refund` with
confidence `min(0.85 + 0.05·3, 0.95) = 0.95`; the code returns `order_status`
— the first declared intent with *any* match — at its fixed confidence 0.85. -/
theorem c1_highest_count_cex :
    (spec_classify (chars "track my refund money back")).1 = chars "return_refund" ∧
    (spec_classify (chars "track my refund money back")).2 = 95/100 ∧
    (classify_intent (chars "track my refund money back")).intent = chars "order_status" ∧
    (classify_intent (chars "track my refund money back")).confidence = 85/100 ∧
    (classify_intent (chars "track my refund money back")).intent ≠
      (spec_classify (chars "track my refund money back")).1 ∧
    (classify_intent (chars "track my refund money back")).confidence ≠
      (spec_classify (chars "track my refund money back")).2 := by
  have h1 : (spec_classify (chars "track my refund money back")).1
      = chars "return_refund" := by decide
  have hc : (spec_classify (chars "track my refund money back")).2
      = min (85/100 + (3 : ℚ) * (5/100)) (95/100) := by
    show (min (85/100 + ((3:ℕ) : ℚ) * (5/100)) (95/100)) = _
    norm_num
  have h2 : (spec_classify (chars "track my refund money back")).2 = 95/100 := by
    rw [hc]; norm_num
  have hcode : (classify_intent (chars "track my refund money back")).confidence
      = 85/100 := rfl
  refine ⟨h1, h2, rfl, hcode, ?_, ?_⟩
  · rw [h1]; decide
  · rw [hcode, h2]; norm_num

/-- **Claim C1, amended.**  For every input text the classifier returns the
*first* intent in declaration order with at least one keyword occurring in the
lower-cased text (not the highest-count one), always at the fixed confidence
0.85 (not `min(0.85 + 0.05·count, 0.95)`) and with an empty entity list; when
no intent has a matching keyword it returns `general_inquiry` at 0.6. -/
theorem c1_first_match_fixed_confidence (t : Str) :
    (classify_intent t).entities = [] ∧
    ((∃ pre kws post,
        intent_keywords = pre ++ ((classify_intent t).intent, kws) :: post ∧
        0 < spec_matched_count kws (toLowerStr t) ∧
        (∀ q ∈ pre, spec_matched_count q.2 (toLowerStr t) = 0) ∧
        (classify_intent t).confidence = 85/100) ∨
      ((∀ q ∈ intent_keywords, spec_matched_count q.2 (toLowerStr t) = 0) ∧
        classify_intent t = fallbackResult t)) := by
  cases h : firstMatch (toLowerStr t) intent_keywords with
  | none =>
    have hcl : classify_intent t = fallbackResult t := by
      rw [classify_intent_eq t, h]
    rw [hcl]
    refine ⟨rfl, Or.inr ⟨?_, rfl⟩⟩
    intro q hq
    exact (anyKeywordIn_false_iff_count q.2 (toLowerStr t)).mp
      (firstMatch_none_all (toLowerStr t) intent_keywords h q hq)
  | some i =>
    have hcl : classify_intent t =
        ⟨i, 85/100, [], t, chars "keyword_match"⟩ := by
      rw [classify_intent_eq t, h]
    obtain ⟨pre, kws, post, hsplit, hany, hpre⟩ :=
      firstMatch_some_decomp (toLowerStr t) intent_keywords i h
    rw [hcl]
    refine ⟨rfl, Or.inl ⟨pre, kws, post, hsplit, ?_, ?_, rfl⟩⟩
    · exact (anyKeywordIn_iff_count kws (toLowerStr t)).mp hany
    · intro q hq
      exact (anyKeywordIn_false_iff_count q.2 (toLowerStr t)).mp (hpre q hq)

/-- Closed instance of the amended claim C1 at a concrete input. -/
theorem c1_first_match_fixed_confidence_witness :
    (classify_intent (chars "track my refund money back")).entities = [] :=
  (c1_first_match_fixed_confidence (chars "track my refund money back")).1

-- ==================== Claim C2 ====================

/-- **Counterexample to claim C2.**  The classifier performs no entity
extraction at all: on the claim's own input its `entities` list is empty, so
no `order_number` entity with value `"123456"` is present. -/
theorem c2_order_entity_cex :
    ¬ ∃ e ∈ (classify_intent (chars "What is my order status? order 123456")).entities,
        e.entity = chars "order_number" ∧ e.value = chars "123456" := by
  rintro ⟨e, he, -⟩
  have h0 : (classify_intent
      (chars "What is my order status? order 123456")).entities = [] := rfl
  rw [h0] at he
  exact absurd he (List.not_mem_nil e)

/-- **Claim C2, amended.**  On `"What is my order status? order 123456"` the
classifier returns intent `order_status` (confidence 0.85, source
`keyword_match`) with an *empty* entities sequence — no entity records are
ever produced. -/
theorem c2_order_status_empty_entities :
    classify_intent (chars "What is my order status? order 123456") =
      ⟨chars "order_status", 85/100, [],
       chars "What is my order status? order 123456", chars "keyword_match"⟩ := by
  rfl

-- ==================== Claim C8 ====================

/-- **Claim C8, confirmed.**  The classifier is a pure function of the text
(determinism: equal inputs give equal results), and it is total with a fixed
result shape: the text is echoed back, the entity list is always empty, and
the result is either a declared intent at confidence 0.85 with source
`keyword_match`, or exactly the `general_inquiry` fallback at 0.6. -/
theorem c8_classifier_total_deterministic (t : Str) :
    (∀ u : Str, t = u → classify_intent t = classify_intent u) ∧
    (classify_intent t).text = t ∧
    (classify_intent t).entities = [] ∧
    (((classify_intent t).intent ∈ intent_keywords.map Prod.fst ∧
      (classify_intent t).confidence = 85/100 ∧
      (classify_intent t).source = chars "keyword_match") ∨
     classify_intent t = fallbackResult t) := by
  refine ⟨fun u hu => by rw [hu], ?_⟩
  cases h : firstMatch (toLowerStr t) intent_keywords with
  | none =>
    have hcl : classify_intent t = fallbackResult t := by
      rw [classify_intent_eq t, h]
    rw [hcl]
    exact ⟨rfl, rfl, Or.inr rfl⟩
  | some i =>
    have hcl : classify_intent t =
        ⟨i, 85/100, [], t, chars "keyword_match"⟩ := by
      rw [classify_intent_eq t, h]
    obtain ⟨pre, kws, post, hsplit, -, -⟩ :=
      firstMatch_some_decomp (toLowerStr t) intent_keywords i h
    rw [hcl]
    refine ⟨rfl, rfl, Or.inl ⟨?_, rfl, rfl⟩⟩
    show i ∈ intent_keywords.map Prod.fst
    rw [hsplit]
    simp

/-- Closed instance of claim C8's theorem at a concrete input. -/
theorem c8_classifier_total_deterministic_witness :
    (classify_intent (chars "hello there")).entities = [] :=
  (c8_classifier_total_deterministic (chars "hello there")).2.2.1

-- ==================== Claim C3 ====================

/-- **Counterexample to claim C3.**  Current intent `troubleshooting` (in no
related group), previous recorded intent `order_status`: the claim's
topic-shift condition holds, so a topic-shift prefix should be applied to the
reply — but the generated bucket is exactly the bare `troubleshooting`
`first_ask` templates, and no non-empty prefix relates its members to bucket
members.  The source's `generate_response` has no prefixing step at all. -/
theorem c3_topic_shift_cex :
    ¬ claimC3At (chars "it is broken") [chars "Where is my order?"]
        (chars "troubleshooting")
        (some { sampleMeta with user_intent := some (chars "order_status") }) := by
  intro h
  obtain ⟨p, hp, hall⟩ := h.mpr (by decide)
  have hbucket : generate_response_bucket (chars "it is broken")
      [chars "Where is my order?"] (chars "troubleshooting")
      (some { sampleMeta with user_intent := some (chars "order_status") }) =
      troubleshooting_pool.first_ask := by decide
  rw [hbucket] at hall
  obtain ⟨b, hb, heq⟩ := hall
    (chars "I'm sorry you're experiencing an issue. What exactly is happening?")
    (by decide)
  have hb2 : b = chars "I'm sorry you're experiencing an issue. What exactly is happening?"
      ∨ b = chars "I'd like to help fix this. Can you describe what's going wrong?" := by
    simpa [troubleshooting_pool] using hb
  rcases hb2 with hb2 | hb2
  · subst hb2
    have hlen := congrArg List.length heq
    rw [List.length_append] at hlen
    exact hp (List.length_eq_zero.mp (by omega))
  · subst hb2
    exact absurd ⟨p, heq.symm⟩ (by decide :
      ¬ (chars "I'd like to help fix this. Can you describe what's going wrong?" <:+
         chars "I'm sorry you're experiencing an issue. What exactly is happening?"))

/-- **Claim C3, amended.**  The generator applies no topic-shift prefix at
all: for every input the reply bucket is verbatim one of the current intent's
configured buckets (`first_ask`, `followup`, or the order-specific bucket with
only `{order}` substituted).  In particular — trivially — equal current and
previous intents never yield a prefixed reply. -/
theorem c3_reply_never_prefixed (ui : Str) (ctx : List Str) (intent : Str)
    (meta : Option SessionMeta) :
    generate_response_bucket ui ctx intent meta = (getPool intent).first_ask ∨
    generate_response_bucket ui ctx intent meta = (getPool intent).followup ∨
    ∃ n ob, extract_order_number ui ctx = some n ∧
      (getPool intent).with_order_number = some ob ∧
      generate_response_bucket ui ctx intent meta =
        ob.map (fun t => substOrder t n) := by
  rw [generate_response_bucket_eq]
  cases hf : is_followup_question ctx intent meta with
  | false => left; rfl
  | true =>
    cases ho : extract_order_number ui ctx with
    | none => right; left; rfl
    | some n =>
      cases hw : (getPool intent).with_order_number with
      | none => right; left; rfl
      | some ob => right; right; exact ⟨n, ob, rfl, rfl, rfl⟩

-- ==================== Claim C4 ====================

/-- **Counterexample to claim C4.**  With user input `"order 123456"`, intent
`order_status` and *empty* context history: the order number `123456` is
extracted and the intent has an order-specific bucket, yet — the turn not
being a follow-up — the reply bucket is `first_ask`, not the order-specific
bucket required by the claim's "regardless of whether the turn is a
follow-up". -/
theorem c4_order_bucket_cex : ¬ claimC4 := by
  intro h
  have hc := h (chars "order 123456") [] (chars "order_status") none
    (chars "123456")
    [chars "Order {order} is currently in transit. Expected delivery is within 3-5 business days.",
     chars "I found order {order}. It's been shipped and you should see it arrive soon."]
    (by decide) (by decide)
  exact absurd hc (by decide)

/-- **Claim C4, amended.**  The order-specific bucket is used exactly when
the turn *is* a follow-up, an order number is extracted, and the intent's
template set has such a bucket; the reply bucket is then that bucket with
`{order}` replaced by the extracted value, and every reply is a member of it. -/
theorem c4_followup_order_bucket (ui : Str) (ctx : List Str) (intent : Str)
    (meta : Option SessionMeta) (n : Str) (ob : List Str)
    (hf : is_followup_question ctx intent meta = true)
    (ho : extract_order_number ui ctx = some n)
    (hw : (getPool intent).with_order_number = some ob) :
    generate_response_bucket ui ctx intent meta =
      ob.map (fun t => substOrder t n) ∧
    ∀ r ∈ generate_response_bucket ui ctx intent meta,
      ∃ t ∈ ob, r = substOrder t n := by
  have hb : generate_response_bucket ui ctx intent meta =
      ob.map (fun t => substOrder t n) := by
    rw [generate_response_bucket_eq, hf, ho, hw]
  refine ⟨hb, ?_⟩
  rw [hb]
  intro r hr
  obtain ⟨t, ht, hrt⟩ := List.mem_map.mp hr
  exact ⟨t, ht, hrt.symm⟩

-- ==================== Claim C5 ====================

/-- **Counterexample to claim C5.**  Processing `"where is my order"` on a
fresh session succeeds with intent `order_status`, yet the stored topic stays
`None`: the engine passes no topic to `update_session_intent` (whose default
is `None`), so the `coalesce` keeps the old value and the topic is never set
to the classified intent. -/
theorem c5_topic_update_cex : ¬ claimC5 := by
  intro h
  have hc := h chooseHead sampleDB (chars "s1") (chars "where is my order")
    (by decide)
  have hactual :
      (get_session_metadata
          (process_message chooseHead sampleDB (chars "s1")
            (chars "where is my order")).2.1 (chars "s1")).map
        SessionMeta.topic = some none := by decide
  have hintent :
      (process_message chooseHead sampleDB (chars "s1")
        (chars "where is my order")).1.intent =
      some (chars "order_status") := by decide
  rw [hactual, hintent] at hc
  exact absurd hc (by decide)

/-- **Claim C5, amended.**  On every successfully processed turn the engine
sets the session's `user_intent` to the classified intent but supplies *no*
topic, so the stored topic is left unchanged; the store-side `coalesce` rule
(set topic only when a non-null topic argument is given) is exactly what the
first conjunct states. -/
theorem c5_intent_updated_topic_unchanged :
    (∀ (db : DB) (sid i : Str) (t : Option Str) (m : SessionMeta),
        get_session_metadata db sid = some m →
        get_session_metadata (update_session_intent db sid i t) sid =
          some { m with user_intent := some i,
                        topic := (match t with
                                  | some x => some x
                                  | none => m.topic) }) ∧
    (∀ (choose : List Str → Str) (db : DB) (sid msg : Str) (m : SessionMeta),
        (validate_message msg).1 = true →
        get_session_metadata db sid = some m →
        (get_session_metadata (process_message choose db sid msg).2.1 sid).map
            SessionMeta.user_intent =
          some (some (classify_intent (sanitize_message msg)).intent) ∧
        (get_session_metadata (process_message choose db sid msg).2.1 sid).map
            SessionMeta.topic = some m.topic) := by
  refine ⟨meta_update_session, ?_⟩
  intro choose db sid msg m hv hm
  rw [process_db_eq choose db sid msg hv]
  have h1 := meta_add_message db sid (chars "user") (sanitize_message msg)
    (some (classify_intent (sanitize_message msg)).intent)
    (entityDict (classify_intent (sanitize_message msg)).entities) m hm
  have h2 := meta_update_session _ sid
    (classify_intent (sanitize_message msg)).intent none _ h1
  have h3 := meta_add_message _ sid (chars "bot")
    (generate_response choose (sanitize_message msg)
      ((get_conversation_context db sid CONTEXT_WINDOW_SIZE).map
        (fun m => m.text))
      (classify_intent (sanitize_message msg)).intent
      (get_session_metadata db sid))
    (some (chars "response_to_" ++ (classify_intent (sanitize_message msg)).intent))
    [] _ h2
  rw [h3]
  exact ⟨rfl, rfl⟩

/-- Closed instance of the amended claim C5 at a concrete input. -/
theorem c5_intent_updated_topic_unchanged_witness :
    (get_session_metadata
        (process_message chooseHead sampleDB (chars "s1")
          (chars "where is my order")).2.1 (chars "s1")).map
      SessionMeta.topic = some sampleMeta.topic :=
  (c5_intent_updated_topic_unchanged.2 chooseHead sampleDB (chars "s1")
    (chars "where is my order") sampleMeta (by decide) (by decide)).2

-- ==================== Claim C6 ====================

/-- **Claim C6, confirmed.**  When validation fails, `process_message`
returns the error result carrying the validator's reason, the store state is
returned untouched, the store-call trace is empty, and no bot response is
generated. -/
theorem c6_validation_short_circuit (choose : List Str → Str) (db : DB)
    (sid msg : Str) (h : (validate_message msg).1 = false) :
    process_message choose db sid msg =
      ({ status := chars "error", error := some (validate_message msg).2,
         session_id := none, bot_response := none, intent := none,
         confidence := none, entities := [], is_followup := none,
         context_messages := none }, db, []) := by
  simp [process_message, h]

/-- Closed instance of claim C6's theorem at a concrete input: a
whitespace-only message short-circuits with the empty-message reason and no
store access. -/
theorem c6_validation_short_circuit_witness :
    (validate_message (chars "   ")).1 = false ∧
    process_message chooseHead sampleDB (chars "s1") (chars "   ") =
      ({ status := chars "error",
         error := some (chars "Message cannot be empty"),
         session_id := none, bot_response := none, intent := none,
         confidence := none, entities := [], is_followup := none,
         context_messages := none }, sampleDB, []) :=
  ⟨by decide,
   c6_validation_short_circuit chooseHead sampleDB (chars "s1") (chars "   ")
     (by decide)⟩

-- ==================== Claim C7 ====================

/-- `pyStrip` erases a string exactly when every character is whitespace. -/
theorem pyStrip_eq_nil_iff (l : Str) :
    pyStrip l = [] ↔ ∀ c ∈ l, pyIsSpace c = true := by
  unfold pyStrip
  rw [List.reverse_eq_nil_iff, List.dropWhile_eq_nil_iff]
  constructor
  · intro h c hc
    rw [← List.takeWhile_append_dropWhile (p := pyIsSpace) (l := l)] at hc
    rcases List.mem_append.mp hc with hc | hc
    · exact List.mem_takeWhile_imp hc
    · exact h c (List.mem_reverse.mpr hc)
  · intro h c hc
    exact h c ((List.dropWhile_sublist pyIsSpace).subset (List.mem_reverse.mp hc))

/-- **Counterexample to claim C7.**  A message of 1001 spaces exceeds 1000
characters, yet validation reports the *empty* reason, not the
length-specific one: the emptiness check runs first and a whitespace-only
text strips to nothing. -/
theorem c7_long_whitespace_cex :
    1000 < (List.replicate 1001 ' ' : Str).length ∧
    validate_message (List.replicate 1001 ' ') =
      (false, chars "Message cannot be empty") ∧
    validate_message (List.replicate 1001 ' ') ≠
      (false, chars "Message exceeds 1000 characters") := by
  have hall : ∀ c ∈ (List.replicate 1001 ' ' : Str), pyIsSpace c = true := by
    intro c hc
    rw [List.eq_of_mem_replicate hc]
    rfl
  have hs : pyStrip (List.replicate 1001 ' ') = [] :=
    (pyStrip_eq_nil_iff _).mpr hall
  have hval : validate_message (List.replicate 1001 ' ') =
      (false, chars "Message cannot be empty") := by
    unfold validate_message
    rw [if_pos (Or.inr hs)]
  refine ⟨by rw [List.length_replicate]; omega, hval, ?_⟩
  intro contra
  rw [hval] at contra
  exact absurd (congrArg Prod.snd contra) (by decide)

/-- **Claim C7, amended.**  Every empty or whitespace-only text fails with
the empty reason (whatever its length); every text longer than 1000
characters *containing at least one non-whitespace character* fails with the
length-specific reason.  (The unrestricted length half of the original claim
is contradicted by whitespace-only long texts.) -/
theorem c7_validation_reasons :
    (∀ t : Str, (∀ c ∈ t, pyIsSpace c = true) →
        validate_message t = (false, chars "Message cannot be empty")) ∧
    (∀ t : Str, 1000 < t.length → (∃ c ∈ t, pyIsSpace c = false) →
        validate_message t = (false, chars "Message exceeds 1000 characters")) := by
  constructor
  · intro t h
    unfold validate_message
    rw [if_pos (Or.inr ((pyStrip_eq_nil_iff t).mpr h))]
  · intro t hlen hex
    have ht : t ≠ [] := by
      rintro rfl
      obtain ⟨c, hc, -⟩ := hex
      exact absurd hc (List.not_mem_nil c)
    have hne : pyStrip t ≠ [] := by
      rw [Ne, pyStrip_eq_nil_iff]
      push_neg
      obtain ⟨c, hc, hcf⟩ := hex
      exact ⟨c, hc, by simp [hcf]⟩
    unfold validate_message
    rw [if_neg (by push_neg; exact ⟨ht, hne⟩), if_pos (by simpa [MAX_MESSAGE_LENGTH] using hlen)]

/-- Closed instances of the amended claim C7 at concrete inputs. -/
theorem c7_validation_reasons_witness :
    validate_message (chars " ") = (false, chars "Message cannot be empty") ∧
    validate_message (List.replicate 1001 'a') =
      (false, chars "Message exceeds 1000 characters") :=
  ⟨c7_validation_reasons.1 (chars " ") (by decide),
   c7_validation_reasons.2 (List.replicate 1001 'a') (by rw [List.length_replicate]; omega)
     ⟨'a', List.mem_replicate.mpr ⟨by omega, rfl⟩, rfl⟩⟩

-- ==================== Claim C9 ====================

/-- Appending to a non-empty list keeps its first character. -/
theorem headSp_append_ne {X : Str} (hX : X ≠ []) (Y : Str) :
    headSp (X ++ Y) = headSp X := by
  cases X with
  | nil => exact absurd rfl hX
  | cons d ds => rfl

/-- A non-empty list is not `isEmpty`. -/
theorem isEmpty_false_of_ne {l : Str} (h : l ≠ []) : l.isEmpty = false := by
  cases l with
  | nil => exact absurd rfl h
  | cons c rest => rfl

/-- Structural unfolding of `lastSp` on a cons cell. -/
theorem lastSp_cons (c : Char) (rest : Str) :
    lastSp (c :: rest) = if rest.isEmpty then pyIsSpace c else lastSp rest := by
  cases rest with
  | nil => rfl
  | cons e es =>
    have h1 : lastSp (c :: e :: es) = headSp ((e :: es).reverse ++ [c]) := by
      unfold lastSp
      rw [List.reverse_cons]
    rw [h1, headSp_append_ne (by simp) [c],
      show ((e :: es).isEmpty) = false from rfl]
    simp [lastSp]

/-- `lastSp` ignores a cons onto a non-empty tail. -/
theorem lastSp_cons_ne (c : Char) {Y : Str} (hY : Y ≠ []) :
    lastSp (c :: Y) = lastSp Y := by
  rw [lastSp_cons, isEmpty_false_of_ne hY]
  simp

/-- After dropping leading whitespace nothing whitespace can lead. -/
theorem headSp_dropWhile (l : Str) : headSp (l.dropWhile pyIsSpace) = false := by
  induction l with
  | nil => rfl
  | cons c rest ih =>
    cases hc : pyIsSpace c with
    | true => simpa [List.dropWhile_cons, hc] using ih
    | false => rw [List.dropWhile_cons, if_neg (by simp [hc])]; exact hc

/-- `dropWhile` is the identity when the head already fails the predicate. -/
theorem dropWhile_headSp_id {l : Str} (h : headSp l = false) :
    l.dropWhile pyIsSpace = l := by
  cases l with
  | nil => rfl
  | cons c rest =>
    rw [List.dropWhile_cons, if_neg (by simp [show pyIsSpace c = false from h])]

/-- A stripped string never starts with whitespace. -/
theorem headSp_pyStrip (l : Str) : headSp (pyStrip l) = false := by
  unfold pyStrip
  obtain ⟨t, ht⟩ :=
    List.dropWhile_suffix (l := (l.dropWhile pyIsSpace).reverse) pyIsSpace
  have hA : headSp (l.dropWhile pyIsSpace) = false := headSp_dropWhile l
  have hmain : ((l.dropWhile pyIsSpace).reverse.dropWhile pyIsSpace).reverse
      ++ t.reverse = l.dropWhile pyIsSpace := by
    rw [← List.reverse_append, ht, List.reverse_reverse]
  cases hB : ((l.dropWhile pyIsSpace).reverse.dropWhile pyIsSpace).reverse with
  | nil => rfl
  | cons d ds =>
    rw [hB] at hmain
    have hd : headSp (l.dropWhile pyIsSpace) = pyIsSpace d := by
      rw [← hmain]; rfl
    show pyIsSpace d = false
    rw [← hd]
    exact hA

/-- A stripped string never ends with whitespace. -/
theorem lastSp_pyStrip (l : Str) : lastSp (pyStrip l) = false := by
  unfold pyStrip lastSp
  rw [List.reverse_reverse]
  exact headSp_dropWhile _

/-- `strip` is the identity on strings with no leading or trailing
whitespace. -/
theorem pyStrip_eq_self {l : Str} (h1 : headSp l = false)
    (h2 : lastSp l = false) : pyStrip l = l := by
  unfold pyStrip
  rw [dropWhile_headSp_id h1, dropWhile_headSp_id h2, List.reverse_reverse]

/-- Whitespace collapsing in an open run never emits a leading space. -/
theorem headSp_collapseAux_true : ∀ l : Str, headSp (collapseAux true l) = false := by
  intro l
  induction l with
  | nil => rfl
  | cons c rest ih =>
    cases hc : pyIsSpace c with
    | true => simpa [collapseAux, hc] using ih
    | false =>
      have hstep : collapseAux true (c :: rest) = c :: collapseAux false rest := by
        simp [collapseAux, hc]
      rw [hstep]
      exact hc

/-- Whitespace collapsing preserves a non-whitespace first character. -/
theorem headSp_collapseAux_false {l : Str} (h : headSp l = false) :
    headSp (collapseAux false l) = false := by
  cases l with
  | nil => rfl
  | cons c rest =>
    have hstep : collapseAux false (c :: rest) = c :: collapseAux false rest := by
      simp [collapseAux, show pyIsSpace c = false from h]
    rw [hstep]
    exact h

/-- Collapsing a non-empty string outside a run yields a non-empty string. -/
theorem collapseAux_false_ne_nil (c : Char) (rest : Str) :
    collapseAux false (c :: rest) ≠ [] := by
  unfold collapseAux
  cases hc : pyIsSpace c <;> simp [hc]

/-- Collapsing inside a run is non-empty as long as some non-whitespace
character remains (witnessed by the last character). -/
theorem collapseAux_true_ne_nil :
    ∀ l : Str, l ≠ [] → lastSp l = false → collapseAux true l ≠ [] := by
  intro l
  induction l with
  | nil => intro h _; exact absurd rfl h
  | cons c rest ih =>
    intro _ hl
    cases hc : pyIsSpace c with
    | true =>
      have hrest : rest ≠ [] := by
        intro h0
        subst h0
        rw [lastSp_cons] at hl
        simp [hc] at hl
      have hl' : lastSp rest = false := by
        rw [lastSp_cons_ne c hrest] at hl
        exact hl
      have hstep : collapseAux true (c :: rest) = collapseAux true rest := by
        simp [collapseAux, hc]
      rw [hstep]
      exact ih hrest hl'
    | false =>
      have hstep : collapseAux true (c :: rest) = c :: collapseAux false rest := by
        simp [collapseAux, hc]
      rw [hstep]
      simp

/-- Whitespace collapsing never leaves a trailing space. -/
theorem lastSp_collapseAux :
    ∀ (l : Str) (b : Bool), lastSp l = false → lastSp (collapseAux b l) = false := by
  intro l
  induction l with
  | nil => intro b _; cases b <;> rfl
  | cons c rest ih =>
    intro b hl
    cases hc : pyIsSpace c with
    | true =>
      have hrest : rest ≠ [] := by
        intro h0
        subst h0
        rw [lastSp_cons] at hl
        simp [hc] at hl
      have hl' : lastSp rest = false := by
        rw [lastSp_cons_ne c hrest] at hl
        exact hl
      cases b with
      | true =>
        have hstep : collapseAux true (c :: rest) = collapseAux true rest := by
          simp [collapseAux, hc]
        rw [hstep]
        exact ih true hl'
      | false =>
        have hY : collapseAux true rest ≠ [] :=
          collapseAux_true_ne_nil rest hrest hl'
        have hstep : collapseAux false (c :: rest) = ' ' :: collapseAux true rest := by
          simp [collapseAux, hc]
        rw [hstep, lastSp_cons_ne ' ' hY]
        exact ih true hl'
    | false =>
      have hstep : collapseAux b (c :: rest) = c :: collapseAux false rest := by
        simp [collapseAux, hc]
      rw [hstep]
      by_cases hrest : rest = []
      · subst hrest
        show lastSp [c] = false
        rw [lastSp_cons]
        simpa using hc
      · have hl' : lastSp rest = false := by
          rw [lastSp_cons_ne c hrest] at hl
          exact hl
        have hY : collapseAux false rest ≠ [] := by
          cases rest with
          | nil => exact absurd rfl hrest
          | cons e es => exact collapseAux_false_ne_nil e es
        rw [lastSp_cons_ne c hY]
        exact ih false hl'

/-- The output of whitespace collapsing has only isolated single spaces. -/
theorem spIsolated_collapseAux :
    ∀ (l : Str) (b : Bool), spIsolated (collapseAux b l) = true := by
  intro l
  induction l with
  | nil => intro b; rfl
  | cons c rest ih =>
    intro b
    cases hc : pyIsSpace c with
    | true =>
      cases b with
      | true =>
        have hstep : collapseAux true (c :: rest) = collapseAux true rest := by
          simp [collapseAux, hc]
        rw [hstep]
        exact ih true
      | false =>
        have hstep : collapseAux false (c :: rest) = ' ' :: collapseAux true rest := by
          simp [collapseAux, hc]
        rw [hstep]
        show ((!pyIsSpace ' ' || (' ' == ' ' && !headSp (collapseAux true rest)))
            && spIsolated (collapseAux true rest)) = true
        rw [headSp_collapseAux_true rest, ih true]
        rfl
    | false =>
      have hstep : collapseAux b (c :: rest) = c :: collapseAux false rest := by
        simp [collapseAux, hc]
      rw [hstep]
      show ((!pyIsSpace c || (c == ' ' && !headSp (collapseAux false rest)))
          && spIsolated (collapseAux false rest)) = true
      rw [hc, ih false]
      rfl

/-- Whitespace collapsing is the identity on a string whose spaces are
already isolated single spaces. -/
theorem collapseAux_eq_self :
    ∀ l : Str, spIsolated l = true →
      collapseAux false l = l ∧ (headSp l = false → collapseAux true l = l) := by
  intro l
  induction l with
  | nil => intro _; exact ⟨rfl, fun _ => rfl⟩
  | cons c rest ih =>
    intro h
    have h' : ((!pyIsSpace c || (c == ' ' && !headSp rest))
        && spIsolated rest) = true := h
    rw [Bool.and_eq_true] at h'
    obtain ⟨h1, h2⟩ := h'
    obtain ⟨ih1, ih2⟩ := ih h2
    cases hc : pyIsSpace c with
    | false =>
      have hstep : ∀ b : Bool, collapseAux b (c :: rest) = c :: collapseAux false rest :=
        fun b => by simp [collapseAux, hc]
      exact ⟨by rw [hstep false, ih1], fun _ => by rw [hstep true, ih1]⟩
    | true =>
      rw [hc] at h1
      have h1' : (c == ' ' && !headSp rest) = true := by simpa using h1
      rw [Bool.and_eq_true] at h1'
      have hceq : c = ' ' := by simpa using h1'.1
      have hhr : headSp rest = false := by simpa using h1'.2
      have hstep : collapseAux false (c :: rest) = ' ' :: collapseAux true rest := by
        simp [collapseAux, hc]
      constructor
      · rw [hstep, ih2 hhr, hceq]
      · intro hh
        rw [show headSp (c :: rest) = pyIsSpace c from rfl, hc] at hh
        exact absurd hh (by simp)

/-- **Claim C9, confirmed.**  `sanitize_message` is idempotent: stripping and
collapsing a second time changes nothing, because a sanitized string has no
leading or trailing whitespace (so the strip is the identity) and all its
whitespace is isolated single spaces (so the collapse is the identity). -/
theorem c9_sanitize_idempotent (t : Str) :
    sanitize_message (sanitize_message t) = sanitize_message t := by
  show collapseWS (pyStrip (collapseWS (pyStrip t))) = collapseWS (pyStrip t)
  unfold collapseWS
  rw [pyStrip_eq_self (headSp_collapseAux_false (headSp_pyStrip t))
    (lastSp_collapseAux _ false (lastSp_pyStrip t))]
  exact (collapseAux_eq_self _ (spIsolated_collapseAux _ false)).1

/-- Closed instance of the amended claim C4 at a concrete input. -/
theorem c4_followup_order_bucket_witness :
    generate_response_bucket (chars "order 9981 please")
        [chars "hi", chars "hello"] (chars "order_status") none =
      [chars "Order {order} is currently in transit. Expected delivery is within 3-5 business days.",
       chars "I found order {order}. It's been shipped and you should see it arrive soon."].map
        (fun t => substOrder t (chars "9981")) :=
  (c4_followup_order_bucket (chars "order 9981 please")
    [chars "hi", chars "hello"] (chars "order_status") none (chars "9981") _
    (by decide) (by decide) (by decide)).1
